import Mathlib

/-!
Verification development for a Java-repository knowledge-extraction pipeline.

The Python sources embedded here (shallowly, as executable Lean functions):
  * `java_parser.py` — `safe_to_dict`, `calculate_method_complexity`,
    `extract_method_info`, `parse_java_file`;
  * `repository_scanner.py` — `RepositoryScanner.scan`,
    `RepositoryScanner.get_statistics`;
  * `llm_service.py` — `LLMService.call_with_retry`,
    `LLMService.extract_class_summary`, `LLMService.extract_project_overview`;
  * `knowledge_structurer.py` — `KnowledgeStructurer.structure_knowledge`
    and its helper methods.

Modelling conventions:
  * Python `None`-or-value fields are `Option`; Python string truthiness
    (`if x:` on a string) treats both `None` and `""` as false and is modelled
    explicitly wherever the source relies on it.
  * Machine floats are modelled as exact rationals (`ℚ`).
  * Raised exceptions of external collaborators are modelled with
    `Except`/`Option` results; the embedded functions are total, which renders
    the fact that the Python functions catch these exceptions.
  * Calls to `logger.warning`/`logger.error` are rendered as explicit lists of
    `LogEvent` values returned alongside the function result; `logger.info`
    calls carry no claim content and are omitted.
  * String primitives (`lower`, `strip`, `count`, `repr`) are re-implemented
    on character lists so that concrete witnesses evaluate inside the kernel;
    they agree with Python on the ASCII inputs this pipeline handles.
-/

/-- Log levels used by the pipeline (`logger.warning` / `logger.error`). -/
inductive LogLevel where
  | warning
  | error
deriving DecidableEq

/-- One logging call: a level and the formatted message. -/
structure LogEvent where
  level : LogLevel
  msg : String
deriving DecidableEq

/-- The single-quote character, used by the Python `repr` of strings. -/
def pyQuote : Char := Char.ofNat 39

/-- The backslash character. -/
def pyBackslash : Char := Char.ofNat 92

/-- Fuel-driven kernel of `pyCount`: count non-overlapping occurrences of
`pat` in the character list, scanning left to right and skipping past each
match, exactly as Python `str.count` does.  The fuel is initialised to the
length of the scanned list, which every recursive call strictly decreases
(for a non-empty `pat`), so the `fuel = 0` default is never reached from
`pyCount`. -/
def pyCountGo (pat : List Char) : Nat → List Char → Nat
  | 0, _ => 0
  | _, [] => 0
  | fuel + 1, c :: rest =>
      if pat.isPrefixOf (c :: rest) then
        1 + pyCountGo pat fuel ((c :: rest).drop pat.length)
      else
        pyCountGo pat fuel rest

/-- Python `s.count(pat)`: the number of non-overlapping occurrences of `pat`
in `s` (and `len(s) + 1` for the empty pattern, as in Python). -/
def pyCount (s pat : String) : Nat :=
  if pat.data.isEmpty then s.data.length + 1
  else pyCountGo pat.data s.data.length s.data

/-- ASCII lower-casing of one character (the fragment of Python `str.lower`
exercised by this pipeline). -/
def asciiLower (c : Char) : Char :=
  if 65 ≤ c.toNat ∧ c.toNat ≤ 90 then Char.ofNat (c.toNat + 32) else c

/-- Python `s.lower()` on ASCII text. -/
def pyLower (s : String) : String :=
  String.mk (s.data.map asciiLower)

/-- ASCII whitespace, as stripped by Python `str.strip()`. -/
def isPySpace (c : Char) : Bool :=
  c = Char.ofNat 32 ∨ c = Char.ofNat 9 ∨ c = Char.ofNat 10 ∨ c = Char.ofNat 13

/-- Python `s.strip()`: drop leading and trailing whitespace. -/
def pyStrip (s : String) : String :=
  String.mk (((s.data.dropWhile isPySpace).reverse.dropWhile isPySpace).reverse)

mutual
/-- Python objects as seen by `safe_to_dict`: lists, objects carrying a
`__dict__` of named attributes (javalang AST nodes), the JSON-primitive
values, and anything else (rendered through `str`; the `pyStr` constructor
covers both genuine strings and such stringified objects).  The list and
attribute-mapping spines are separate members of the mutual inductive so
that the conversion and rendering functions below are structurally
recursive (and hence kernel-reducible); `PyObjList` is `List PyObj` and
`PyAttrs` is `List (String × PyObj)` in cons-cell form. -/
inductive PyObj where
  | pyList : PyObjList → PyObj
  | pyNode : PyAttrs → PyObj
  | pyStr : String → PyObj
  | pyInt : Int → PyObj
  | pyBool : Bool → PyObj
  | pyNone : PyObj
inductive PyObjList where
  | nil : PyObjList
  | cons : PyObj → PyObjList → PyObjList
inductive PyAttrs where
  | nil : PyAttrs
  | cons : String → PyObj → PyAttrs → PyAttrs
end

mutual
/-- JSON-serializable Python values: the codomain of `safe_to_dict`, with
list and dict spines encoded as in `PyObj`. -/
inductive PyVal where
  | vList : PyValList → PyVal
  | vDict : PyDict → PyVal
  | vStr : String → PyVal
  | vInt : Int → PyVal
  | vBool : Bool → PyVal
  | vNone : PyVal
inductive PyValList where
  | nil : PyValList
  | cons : PyVal → PyValList → PyValList
inductive PyDict where
  | nil : PyDict
  | cons : String → PyVal → PyDict → PyDict
end

mutual
/-- `safe_to_dict` (java_parser.py, lines 6–28): recursively convert javalang
nodes into JSON-serializable values.  Lists convert elementwise; objects with
a `__dict__` convert attribute-wise, dropping the attributes named
`position`, `documentation` and `annotations`; primitives pass through; any
other object is rendered with `str` (already folded into `pyStr`). -/
def safe_to_dict : PyObj → PyVal
  | PyObj.pyList xs => PyVal.vList (safe_to_dict_list xs)
  | PyObj.pyNode attrs => PyVal.vDict (safe_to_dict_attrs attrs)
  | PyObj.pyStr s => PyVal.vStr s
  | PyObj.pyInt n => PyVal.vInt n
  | PyObj.pyBool b => PyVal.vBool b
  | PyObj.pyNone => PyVal.vNone
def safe_to_dict_list : PyObjList → PyValList
  | PyObjList.nil => PyValList.nil
  | PyObjList.cons x xs => PyValList.cons (safe_to_dict x) (safe_to_dict_list xs)
def safe_to_dict_attrs : PyAttrs → PyDict
  | PyAttrs.nil => PyDict.nil
  | PyAttrs.cons k v rest =>
      if k = "position" ∨ k = "documentation" ∨ k = "annotations" then
        safe_to_dict_attrs rest
      else
        PyDict.cons k (safe_to_dict v) (safe_to_dict_attrs rest)
end

/-- Python `repr` of a string: quoted with single quotes (double quotes when
the string contains a single quote but no double quote), escaping backslashes
and, in the single-quoted form, single quotes. -/
def pyReprStr (s : String) : String :=
  if s.data.contains pyQuote && !(s.data.contains (Char.ofNat 34)) then
    "\"" ++ s ++ "\""
  else
    String.singleton pyQuote ++
      String.join (s.data.map (fun c =>
        if c = pyQuote then String.singleton pyBackslash ++ String.singleton pyQuote
        else if c = pyBackslash then String.singleton pyBackslash ++ String.singleton pyBackslash
        else String.singleton c)) ++
      String.singleton pyQuote

mutual
/-- Python `str` applied to a JSON-serializable value: lists render as
`[e1, e2, ...]` and dicts as brace-enclosed `key: value` sequences, elements
rendered with `repr` (so strings inside containers are quoted); `None`,
`True` and `False` render by name. -/
def pyStrVal : PyVal → String
  | PyVal.vList xs => "[" ++ String.intercalate ", " (pyStrValList xs) ++ "]"
  | PyVal.vDict kvs => "\x7b" ++ String.intercalate ", " (pyStrDict kvs) ++ "\x7d"
  | PyVal.vStr s => pyReprStr s
  | PyVal.vInt n => toString n
  | PyVal.vBool b => if b then "True" else "False"
  | PyVal.vNone => "None"
def pyStrValList : PyValList → List String
  | PyValList.nil => []
  | PyValList.cons x xs => pyStrVal x :: pyStrValList xs
def pyStrDict : PyDict → List String
  | PyDict.nil => []
  | PyDict.cons k v rest => (pyReprStr k ++ ": " ++ pyStrVal v) :: pyStrDict rest
end

/-- One formal method parameter, as projected by `extract_method_info`
(`param.name` and `param.type.name`). -/
structure Param where
  name : String
  type : String
deriving DecidableEq

/-- A javalang `MethodDeclaration` node, restricted to the attributes the
parser reads: `name`, `modifiers` (a Python set, modelled as the list
produced by `list(...)`), `return_type` (`None` for void/constructors,
otherwise the type name), `parameters`, and `body` (`None` when absent,
otherwise the list of statement nodes). -/
structure MethodNode where
  name : String
  modifiers : List String
  return_type : Option String
  parameters : List Param
  body : Option PyObjList

/-- The fixed keyword set of the complexity heuristic
(java_parser.py, line 49). -/
def decision_keywords : List String :=
  ["if", "for", "while", "case", "catch", "&&", "||", "?"]

/-- `str(safe_to_dict(method_node.body))`: the flattened textual rendering
of a method body (a Python list of statement nodes). -/
def bodyRender (stmts : PyObjList) : String :=
  pyStrVal (safe_to_dict (PyObj.pyList stmts))

/-- `calculate_method_complexity` (java_parser.py, lines 31–53): start from
the base complexity 1; a falsy body (`None` or the empty list) returns it
unchanged; otherwise add, for each decision keyword, the number of its
occurrences in the lower-cased flattened rendering of the body. -/
def calculate_method_complexity (m : MethodNode) : Nat :=
  match m.body with
  | none => 1
  | some PyObjList.nil => 1
  | some stmts =>
      1 + (decision_keywords.map (fun kw => pyCount (pyLower (bodyRender stmts)) kw)).sum

/-- The dictionary built by `extract_method_info`. -/
structure MethodInfo where
  name : String
  signature : String
  modifiers : List String
  return_type : String
  parameters : List Param
  complexity : Nat
  body : Option PyVal

/-- `extract_method_info` (java_parser.py, lines 56–94): project a method
node to its name, rendered signature (space-joined modifiers, return type —
defaulting to `"void"` — name, and comma-separated `type name` parameter
pairs, stripped of outer whitespace), modifiers, return type, parameters,
complexity, and serialized body (`None` for a falsy body). -/
def extract_method_info (m : MethodNode) : MethodInfo :=
  let params := m.parameters
  let return_type := match m.return_type with
    | some rt => rt
    | none => "void"
  let modifiers := m.modifiers
  let signature :=
    pyStrip (String.intercalate " " modifiers ++ " " ++ return_type ++ " " ++ m.name ++
      "(" ++ String.intercalate ", " (params.map (fun p => p.type ++ " " ++ p.name)) ++ ")")
  { name := m.name
  , signature := signature
  , modifiers := modifiers
  , return_type := return_type
  , parameters := params
  , complexity := calculate_method_complexity m
  , body :=
      match m.body with
      | none => none
      | some PyObjList.nil => none
      | some stmts => some (safe_to_dict (PyObj.pyList stmts)) }

/-- A javalang `FieldDeclaration` node: the declared type name, modifiers,
and the declarator names it introduces. -/
structure FieldDecl where
  type : String
  modifiers : List String
  declarators : List String

/-- One entry of a class's `fields` list. -/
structure FieldInfo where
  name : String
  type : String
  modifiers : List String
deriving DecidableEq

/-- A javalang `ClassDeclaration` node, restricted to the attributes read by
`parse_java_file`.  (`extends_` renders the Python attribute `extends`,
which is a reserved word in Lean.) -/
structure ClassDecl where
  name : String
  modifiers : List String
  extends_ : Option String
  implements : List String
  methods : List MethodNode
  fields : List FieldDecl

/-- A javalang `InterfaceDeclaration` node, restricted to the attributes
read by `parse_java_file`. -/
structure InterfaceDecl where
  name : String
  extends_ : List String
  methods : List MethodNode

/-- The result of `javalang.parse.parse` on one file, restricted to what
`parse_java_file` reads: the package name (when a package declaration is
present), the imported paths, and the class/interface declarations in the
order `tree.filter` yields them. -/
structure JavaTree where
  package : Option String
  imports : List String
  classDecls : List ClassDecl
  interfaceDecls : List InterfaceDecl

/-- The per-class dictionary built by `parse_java_file` (lines 151–162). -/
structure ClassInfo where
  name : String
  type : String
  modifiers : List String
  extends_ : Option String
  implements : List String
  methods : List MethodInfo
  fields : List FieldInfo
  method_count : Nat
  field_count : Nat
  avg_complexity : ℚ

/-- The per-interface dictionary built by `parse_java_file`
(lines 171–177). -/
structure InterfaceInfo where
  name : String
  type : String
  extends_ : List String
  methods : List MethodInfo
  method_count : Nat

/-- The dictionary returned by `parse_java_file` (lines 110–116); field
order follows the source. -/
structure ParsedFile where
  file_path : String
  classes : List ClassInfo
  interfaces : List InterfaceInfo
  package : Option String
  imports : List String

/-- The class-loop body of `parse_java_file` (lines 133–163): extract every
method, flatten every field declarator into a `FieldInfo`, and derive the
counts and the average complexity (`sum / len` over the methods, `0` when
there are none). -/
def build_class_info (c : ClassDecl) : ClassInfo :=
  let methods := c.methods.map extract_method_info
  let fields :=
    (c.fields.map (fun fd =>
      fd.declarators.map (fun d => FieldInfo.mk d fd.type fd.modifiers))).flatten
  { name := c.name
  , type := "class"
  , modifiers := c.modifiers
  , extends_ := c.extends_
  , implements := c.implements
  , methods := methods
  , fields := fields
  , method_count := methods.length
  , field_count := fields.length
  , avg_complexity :=
      if methods.isEmpty then 0
      else (((methods.map (fun m => m.complexity)).sum : ℕ) : ℚ) / (methods.length : ℚ) }

/-- The interface-loop body of `parse_java_file` (lines 166–178). -/
def build_interface_info (i : InterfaceDecl) : InterfaceInfo :=
  let methods := i.methods.map extract_method_info
  { name := i.name
  , type := "interface"
  , extends_ := i.extends_
  , methods := methods
  , method_count := methods.length }

/-- `parse_java_file` (java_parser.py, lines 97–180).  The file content and
the external `javalang.parse.parse` call are abstracted into the
`parseResult` argument: `Except.error` renders a raised
`JavaSyntaxError`, `Except.ok` a successful parse.  On a syntax error the
function logs one warning and returns the empty-but-valid default result
(with `file_path` set); on success it fills in package, imports, classes
and interfaces. -/
def parse_java_file (file_path : String) (parseResult : Except String JavaTree) :
    ParsedFile × List LogEvent :=
  match parseResult with
  | Except.error e =>
      ({ file_path := file_path, classes := [], interfaces := [], package := none,
         imports := [] },
       [LogEvent.mk LogLevel.warning ("Parse error in " ++ file_path ++ ": " ++ e)])
  | Except.ok tree =>
      ({ file_path := file_path
       , classes := tree.classDecls.map build_class_info
       , interfaces := tree.interfaceDecls.map build_interface_info
       , package := tree.package
       , imports := tree.imports }, [])

/-- Python `s.endswith(suffix)`. -/
def pyEndsWith (s suffix : String) : Bool :=
  suffix.data.isSuffixOf s.data

/-- The file-selection loop of `RepositoryScanner.scan` (repository_scanner.py,
lines 33–38): keep, in enumeration order, the files whose name ends with one
of the configured extensions.  A file of the walked tree is rendered as its
path paired with the outcome of reading-and-parsing it (the `Except`
abstraction of `parse_java_file`). -/
def scan_select (file_extensions : List String) :
    List (String × Except String JavaTree) → List (String × Except String JavaTree)
  | [] => []
  | f :: rest =>
      if file_extensions.any (fun ext => pyEndsWith f.1 ext) then
        f :: scan_select file_extensions rest
      else
        scan_select file_extensions rest

/-- The parsing loop of `RepositoryScanner.scan` (lines 43–48): parse each
selected file and accumulate the result only when it has at least one class
or interface. -/
def scan_parse_loop : List (String × Except String JavaTree) → List ParsedFile
  | [] => []
  | f :: rest =>
      let parsed := (parse_java_file f.1 f.2).1
      if !parsed.classes.isEmpty || !parsed.interfaces.isEmpty then
        parsed :: scan_parse_loop rest
      else
        scan_parse_loop rest

/-- `RepositoryScanner.scan` (repository_scanner.py, lines 20–51): the
directory walk is abstracted into the `files` argument (every file under the
tree, in enumeration order, with its read-and-parse outcome); the method
selects by extension and parses, discarding empty parse results. -/
def scan (file_extensions : List String)
    (files : List (String × Except String JavaTree)) : List ParsedFile :=
  scan_parse_loop (scan_select file_extensions files)

/-- The class-aggregation loop shared by `RepositoryScanner.get_statistics`
(lines 67–68) and `KnowledgeStructurer.structure_knowledge` (lines 36–37):
`all_classes.extend(file_data["classes"])` over the files in order. -/
def aggregate_classes (parsed_files : List ParsedFile) : List ClassInfo :=
  parsed_files.foldl (fun acc f => acc ++ f.classes) []

/-- The interface-aggregation loop shared by the same two methods. -/
def aggregate_interfaces (parsed_files : List ParsedFile) : List InterfaceInfo :=
  parsed_files.foldl (fun acc f => acc ++ f.interfaces) []

/-- The package-collection loop shared by the same two methods:
`if file_data["package"]: packages.append(...)` — Python truthiness, so both
`None` and the empty string are skipped. -/
def aggregate_packages (parsed_files : List ParsedFile) : List String :=
  parsed_files.foldl (fun acc f =>
    match f.package with
    | some p => if p.data.isEmpty then acc else acc ++ [p]
    | none => acc) []

/-- The dictionary returned by `RepositoryScanner.get_statistics`. -/
structure Statistics where
  total_files : Nat
  total_classes : Nat
  total_interfaces : Nat
  total_methods : Nat
  total_fields : Nat
  unique_packages : Nat
  packages : List String

/-- `RepositoryScanner.get_statistics` (repository_scanner.py, lines 53–84):
flatten classes, interfaces and truthy package names across the input files,
then count.  Python's `list(set(packages))` (an order-unspecified
deduplication) is modelled by `List.dedup`; the claims below depend only on
its length and membership, which the modelling fixes exactly. -/
def get_statistics (parsed_files : List ParsedFile) : Statistics :=
  let all_classes := aggregate_classes parsed_files
  let all_interfaces := aggregate_interfaces parsed_files
  let packages := aggregate_packages parsed_files
  { total_files := parsed_files.length
  , total_classes := all_classes.length
  , total_interfaces := all_interfaces.length
  , total_methods := (all_classes.map (fun c => c.method_count)).sum
  , total_fields := (all_classes.map (fun c => c.field_count)).sum
  , unique_packages := packages.dedup.length
  , packages := packages.dedup }

/-- `LLMService.call_with_retry` (llm_service.py, lines 36–56), iterating the
Python `for attempt in range(max_retries)` over an explicit attempt list.
The external backend (`self.llm.invoke(messages)`) is abstracted as a
function of the attempt index: `some s` is a response with content `s`,
`none` a raised exception (which the source catches).  The messages are the
same on every attempt, so they are not a backend argument; a flaky backend
may still answer differently per attempt, hence the index.  Returns the
result (`none` renders Python `None`), the emitted log events, and the
number of backend invocations. -/
def call_with_retry_go (backend : Nat → Option String) (max_retries : Nat) :
    List Nat → Option String × List LogEvent × Nat
  | [] => (none, [], 0)
  | attempt :: rest =>
      match backend attempt with
      | some content => (some content, [], 1)
      | none =>
          let warn := LogEvent.mk LogLevel.warning
            ("LLM call attempt " ++ toString (attempt + 1) ++ " failed")
          if attempt = max_retries - 1 then
            (none,
             [warn, LogEvent.mk LogLevel.error
                ("All " ++ toString max_retries ++ " attempts failed")],
             1)
          else
            let r := call_with_retry_go backend max_retries rest
            (r.1, warn :: r.2.1, r.2.2 + 1)

/-- `LLMService.call_with_retry` proper: run the loop over attempts
`0, …, max_retries - 1`; falling out of an exhausted (or empty) range
returns `None` with no further logging. -/
def call_with_retry (backend : Nat → Option String) (max_retries : Nat) :
    Option String × List LogEvent × Nat :=
  call_with_retry_go backend max_retries (List.range max_retries)

/-- Python `x or fallback` where `x` is an optional string: `None` and the
empty string are both falsy and select the fallback. -/
def pyOrElse (x : Option String) (fallback : String) : String :=
  match x with
  | none => fallback
  | some s => if s.data.isEmpty then fallback else s

/-- `LLMService.extract_class_summary` (llm_service.py, lines 58–98):
`return self.call_with_retry(messages) or "Summary unavailable"`.  The
prompt built from the class projection does not influence the retry control
flow and is absorbed into the abstract backend. -/
def extract_class_summary (backend : Nat → Option String) (max_retries : Nat) :
    String × List LogEvent × Nat :=
  let r := call_with_retry backend max_retries
  (pyOrElse r.1 "Summary unavailable", r.2.1, r.2.2)

/-- `LLMService.extract_project_overview` (llm_service.py, lines 100–142):
`return self.call_with_retry(messages) or "Overview unavailable"`, the
prompt likewise absorbed into the abstract backend. -/
def extract_project_overview (backend : Nat → Option String) (max_retries : Nat) :
    String × List LogEvent × Nat :=
  let r := call_with_retry backend max_retries
  (pyOrElse r.1 "Overview unavailable", r.2.1, r.2.2)

/-- `KnowledgeStructurer._find_package` (knowledge_structurer.py, lines
141–155): scan the parsed files in order and return the package value of the
first file whose class list contains a class of the given name; return the
string `"N/A"` only when no file matches.  The source's
`pf.get("package", "N/A")` never takes its default for a matched file,
because `parse_java_file` always stores the `package` key — so a matched
file with a `None` package yields Python `None` (Lean `none`), not a
string. -/
def find_package (class_name : String) : List ParsedFile → Option String
  | [] => some "N/A"
  | pf :: rest =>
      if pf.classes.any (fun c => c.name == class_name) then pf.package
      else find_package class_name rest

/-- Round a rational to the nearest integer, ties to even — the rounding of
Python's builtin `round` (which the source applies to floats; values here
are exact rationals). -/
def round_half_even (q : ℚ) : ℤ :=
  let f := Rat.floor q
  let frac := q - (f : ℚ)
  if frac < 1 / 2 then f
  else if 1 / 2 < frac then f + 1
  else if f % 2 = 0 then f
  else f + 1

/-- Python `round(x, 2)` on the exact-rational model. -/
def py_round2 (q : ℚ) : ℚ :=
  (round_half_even (q * 100) : ℚ) / 100

/-- The per-method projection stored in a class summary
(knowledge_structurer.py, lines 97–105). -/
structure MethodBrief where
  name : String
  signature : String
  complexity : Nat
  modifiers : List String

/-- One element of the structured report's `classes` list
(knowledge_structurer.py, lines 87–108). -/
structure ClassSummary where
  name : String
  type : String
  package : Option String
  extends_ : Option String
  implements : List String
  modifiers : List String
  method_count : Nat
  field_count : Nat
  avg_complexity : ℚ
  methods : List MethodBrief
  fields : List FieldInfo
  summary : String

/-- The per-method projection stored in an interface summary
(name and signature only). -/
structure InterfaceMethodBrief where
  name : String
  signature : String

/-- One element of the structured report's `interfaces` list
(knowledge_structurer.py, lines 124–137). -/
structure InterfaceSummary where
  name : String
  type : String
  extends_ : List String
  method_count : Nat
  methods : List InterfaceMethodBrief

/-- The `metadata` section of the structured report
(knowledge_structurer.py, lines 179–186). -/
structure KSMetadata where
  extraction_date : String
  total_classes : Nat
  total_interfaces : Nat
  total_methods : Nat
  packages : List String
  avg_class_complexity : ℚ

/-- The full structured report (knowledge_structurer.py, lines 55–60). -/
structure StructuredKnowledge where
  metadata : KSMetadata
  project_overview : String
  classes : List ClassSummary
  interfaces : List InterfaceSummary

/-- `KnowledgeStructurer._process_classes` (lines 64–110): for each class in
input order, generate its summary through the abstract summarizer, resolve
its package with `find_package`, and assemble a `ClassSummary` with the
average complexity rounded to two decimal places. -/
def process_classes (summarize : ClassInfo → String) (all_classes : List ClassInfo)
    (parsed_files : List ParsedFile) : List ClassSummary :=
  all_classes.map (fun cls =>
    { name := cls.name
    , type := cls.type
    , package := find_package cls.name parsed_files
    , extends_ := cls.extends_
    , implements := cls.implements
    , modifiers := cls.modifiers
    , method_count := cls.method_count
    , field_count := cls.field_count
    , avg_complexity := py_round2 cls.avg_complexity
    , methods := cls.methods.map (fun m =>
        MethodBrief.mk m.name m.signature m.complexity m.modifiers)
    , fields := cls.fields
    , summary := summarize cls })

/-- `KnowledgeStructurer._process_interfaces` (lines 112–139): assemble an
`InterfaceSummary` per interface, in input order, with no language-model
call. -/
def process_interfaces (all_interfaces : List InterfaceInfo) : List InterfaceSummary :=
  all_interfaces.map (fun i =>
    { name := i.name
    , type := "interface"
    , extends_ := i.extends_
    , method_count := i.method_count
    , methods := i.methods.map (fun m => InterfaceMethodBrief.mk m.name m.signature) })

/-- `KnowledgeStructurer._build_metadata` (lines 157–186): totals over the
class summaries, the current timestamp as `extraction_date` (abstracted into
the `now` argument), the deduplicated package list, and the two-decimal
rounded mean of the per-class average complexities (`0` with no classes). -/
def build_metadata (now : String) (class_summaries : List ClassSummary)
    (all_interfaces : List InterfaceInfo) (packages : List String) : KSMetadata :=
  { extraction_date := now
  , total_classes := class_summaries.length
  , total_interfaces := all_interfaces.length
  , total_methods := (class_summaries.map (fun c => c.method_count)).sum
  , packages := packages.dedup
  , avg_class_complexity :=
      if class_summaries.isEmpty then 0
      else py_round2 ((class_summaries.map (fun c => c.avg_complexity)).sum /
        (class_summaries.length : ℚ)) }

/-- `KnowledgeStructurer.structure_knowledge` (knowledge_structurer.py,
lines 19–62): aggregate classes, interfaces and truthy packages across the
parsed files; generate the project overview through the abstract overview
backend; process classes and interfaces; and assemble the report.  The two
language-model entry points (`extract_project_overview`,
`extract_class_summary`) are abstracted into the `overview` and `summarize`
arguments, and `datetime.now().isoformat()` into `now`. -/
def structure_knowledge (overview : List ClassInfo → List String → String)
    (summarize : ClassInfo → String) (now : String)
    (parsed_files : List ParsedFile) : StructuredKnowledge :=
  let all_classes := aggregate_classes parsed_files
  let all_interfaces := aggregate_interfaces parsed_files
  let packages := aggregate_packages parsed_files
  let project_overview := overview all_classes packages
  let class_summaries := process_classes summarize all_classes parsed_files
  let interface_summaries := process_interfaces all_interfaces
  { metadata := build_metadata now class_summaries all_interfaces packages
  , project_overview := project_overview
  , classes := class_summaries
  , interfaces := interface_summaries }

/-- The concrete method used to witness the complexity heuristic: one `if`
and one `&&` in the rendered body, no other decision keyword. -/
def c1_demo_method : MethodNode :=
  MethodNode.mk "check" ["public"] (some "boolean")
    [Param.mk "a" "boolean", Param.mk "b" "boolean"]
    (some (PyObjList.cons (PyObj.pyStr "if (a && b) x = 1;") PyObjList.nil))

/-- A class named `Foo` inside a file with no package declaration
(`package = None`), demonstrating `_find_package` on a default-package
file. -/
def c2_demo_class : ClassInfo :=
  ClassInfo.mk "Foo" "class" [] none [] [] [] 0 0 0

/-- The default-package file containing `c2_demo_class`. -/
def c2_demo_file : ParsedFile :=
  ParsedFile.mk "Foo.java" [c2_demo_class] [] none []

/-- A `ParsedFile` whose package is the empty string — non-null but falsy in
Python. -/
def c6_demo_file : ParsedFile :=
  ParsedFile.mk "Empty.java" [] [] (some "") []

/-- A witness method with absent body: complexity 1. -/
def c7_demo_m1 : MethodNode :=
  MethodNode.mk "reset" ["public"] none [] none

/-- A witness method whose body holds one `if` and one `&&`:
complexity 3. -/
def c7_demo_m3 : MethodNode :=
  MethodNode.mk "check" ["public"] (some "boolean") []
    (some (PyObjList.cons (PyObj.pyStr "if (a && b) x = 1;") PyObjList.nil))

/-- A witness method whose body holds two `for` and two `if`:
complexity 5. -/
def c7_demo_m5 : MethodNode :=
  MethodNode.mk "walk" ["public"] none []
    (some (PyObjList.cons (PyObj.pyStr "for (i) if (j) for (k) if (m)") PyObjList.nil))

/-- A class whose three methods have complexities `[1, 3, 5]`. -/
def c7_demo_class : ClassDecl :=
  ClassDecl.mk "Calc" ["public"] none [] [c7_demo_m1, c7_demo_m3, c7_demo_m5] []

/-- A parse tree containing only `c7_demo_class`. -/
def c7_demo_tree : JavaTree :=
  JavaTree.mk (some "com.x") [] [c7_demo_class] []

/-- C1: for every method with a (truthy) body, the computed complexity is
1 plus the sum, over the fixed keyword set, of the number of
case-insensitive occurrences of that keyword in the flattened textual
rendering of the body; in particular, when that rendering holds exactly one
`if`, one `&&` and no other decision keyword, the complexity is exactly 3. -/
theorem complexity_one_plus_keyword_counts (m : MethodNode) (stmts : PyObjList)
    (hbody : m.body = some stmts) (hne : stmts ≠ PyObjList.nil) :
    calculate_method_complexity m =
      1 + (decision_keywords.map (fun kw => pyCount (pyLower (bodyRender stmts)) kw)).sum ∧
    ((pyCount (pyLower (bodyRender stmts)) "if" = 1 ∧
      pyCount (pyLower (bodyRender stmts)) "&&" = 1 ∧
      ∀ kw ∈ decision_keywords, kw ≠ "if" → kw ≠ "&&" →
        pyCount (pyLower (bodyRender stmts)) kw = 0) →
      calculate_method_complexity m = 3) := by
  cases stmts with
  | nil => exact absurd rfl hne
  | cons x xs =>
      constructor
      · simp [calculate_method_complexity, hbody]
      · rintro ⟨hif, hand, hrest⟩
        have hfor := hrest "for" (by decide) (by decide) (by decide)
        have hwhile := hrest "while" (by decide) (by decide) (by decide)
        have hcase := hrest "case" (by decide) (by decide) (by decide)
        have hcatch := hrest "catch" (by decide) (by decide) (by decide)
        have hor := hrest "||" (by decide) (by decide) (by decide)
        have hq := hrest "?" (by decide) (by decide) (by decide)
        simp [calculate_method_complexity, hbody, decision_keywords,
          hif, hand, hfor, hwhile, hcase, hcatch, hor, hq]

/-- Witness for C1 at a concrete method body holding one `if` and one
`&&`. -/
theorem complexity_one_plus_keyword_counts_witness :
    calculate_method_complexity c1_demo_method = 3 :=
  (complexity_one_plus_keyword_counts c1_demo_method
      (PyObjList.cons (PyObj.pyStr "if (a && b) x = 1;") PyObjList.nil)
      rfl (fun h => nomatch h)).2 (by decide)

/-- C8: a method whose body is absent (`None`) or empty (the falsy `[]`)
has complexity exactly 1, whatever its name, modifiers, return type and
parameter list are. -/
theorem empty_or_absent_body_complexity_one (name : String) (modifiers : List String)
    (return_type : Option String) (parameters : List Param) (body : Option PyObjList)
    (hbody : body = none ∨ body = some PyObjList.nil) :
    calculate_method_complexity
      (MethodNode.mk name modifiers return_type parameters body) = 1 := by
  rcases hbody with h | h <;> subst h <;> rfl

/-- Witness for C8 at a concrete signature-rich method with absent body. -/
theorem empty_or_absent_body_complexity_one_witness :
    calculate_method_complexity
      (MethodNode.mk "compare" ["public", "static"] (some "int")
        [Param.mk "x" "int", Param.mk "y" "int"] none) = 1 :=
  empty_or_absent_body_complexity_one "compare" ["public", "static"] (some "int")
    [Param.mk "x" "int", Param.mk "y" "int"] none (Or.inl rfl)

/-- C2: `_find_package` on a file list whose first match is a
default-package file returns that file's package value — Python `None`, not
a string — even though the very same lookup returns the string `"N/A"` when
no file matches; so the resolved `package` field of a `ClassSummary` is not
always a string, contradicting the function's `-> str` annotation and its
docstring. -/
theorem find_package_none_for_default_package_file :
    (c2_demo_file.classes.any (fun c => c.name == "Foo")) = true ∧
    find_package "Foo" [c2_demo_file] = none ∧
    find_package "Foo" [] = some "N/A" := by
  decide

/-- Behaviour of the retry loop when the backend raises on every attempt:
over the attempt segment `a, …, a + k - 1` closing at `max_retries`, the
loop returns `None`, logs one warning per attempt followed by one final
error, and invokes the backend `k` times. -/
lemma call_with_retry_go_all_fail (max_retries k : Nat) :
    ∀ a, a + k = max_retries → 1 ≤ k →
      call_with_retry_go (fun _ => none) max_retries (List.range' a k) =
        (none,
         (List.range' a k).map (fun i =>
            LogEvent.mk LogLevel.warning ("LLM call attempt " ++ toString (i + 1) ++ " failed")) ++
           [LogEvent.mk LogLevel.error ("All " ++ toString max_retries ++ " attempts failed")],
         k) := by
  induction k with
  | zero => intro a _ hk; exact absurd hk (by decide)
  | succ k ih =>
      intro a ha _
      rw [List.range'_succ]
      cases k with
      | zero =>
          have haeq : a = max_retries - 1 := by omega
          simp [call_with_retry_go, haeq, List.range']
      | succ k2 =>
          have hane : ¬(a = max_retries - 1) := by omega
          have hrec := ih (a + 1) (by omega) (by omega)
          generalize List.range' (a + 1) (k2 + 1) = l at hrec ⊢
          simp [call_with_retry_go, hane, hrec]

/-- C3: with a backend that raises on every attempt and any positive retry
budget, `extract_class_summary` returns exactly `"Summary unavailable"`,
invokes the backend exactly `max_retries` times (the configured default is
3), and logs exactly one warning per failed attempt followed by one final
error — and, being a total function, it raises nothing. -/
theorem summarize_class_fallback_after_all_retries (max_retries : Nat)
    (h : 1 ≤ max_retries) :
    extract_class_summary (fun _ => none) max_retries =
      ("Summary unavailable",
       (List.range max_retries).map (fun i =>
          LogEvent.mk LogLevel.warning ("LLM call attempt " ++ toString (i + 1) ++ " failed")) ++
         [LogEvent.mk LogLevel.error ("All " ++ toString max_retries ++ " attempts failed")],
       max_retries) := by
  have hgo := call_with_retry_go_all_fail max_retries max_retries 0 (by omega) h
  simp [extract_class_summary, call_with_retry, List.range_eq_range', hgo, pyOrElse]

/-- Witness for C3 at the configured default of 3 attempts, with the log
also evaluated to its four concrete events. -/
theorem summarize_class_fallback_after_all_retries_witness :
    (1 ≤ 3 ∧
      extract_class_summary (fun _ => none) 3 =
        ("Summary unavailable",
         (List.range 3).map (fun i =>
            LogEvent.mk LogLevel.warning ("LLM call attempt " ++ toString (i + 1) ++ " failed")) ++
           [LogEvent.mk LogLevel.error ("All " ++ toString 3 ++ " attempts failed")],
         3)) ∧
    (extract_class_summary (fun _ => none) 3).2.1 =
      [LogEvent.mk LogLevel.warning "LLM call attempt 1 failed",
       LogEvent.mk LogLevel.warning "LLM call attempt 2 failed",
       LogEvent.mk LogLevel.warning "LLM call attempt 3 failed",
       LogEvent.mk LogLevel.error "All 3 attempts failed"] :=
  ⟨⟨by decide, summarize_class_fallback_after_all_retries 3 (by decide)⟩, by decide⟩

/-- C10: a backend call that succeeds but returns empty content makes the
summarizers fall back after a single attempt — no retry — and their outputs
equal the outputs produced when every attempt fails, so the two situations
are indistinguishable in the returned strings. -/
theorem empty_content_falls_back_without_retry (max_retries : Nat)
    (h : 1 ≤ max_retries) :
    (extract_class_summary (fun _ => some "") max_retries).1 = "Summary unavailable" ∧
    (extract_class_summary (fun _ => some "") max_retries).2.2 = 1 ∧
    (extract_project_overview (fun _ => some "") max_retries).1 = "Overview unavailable" ∧
    (extract_project_overview (fun _ => some "") max_retries).2.2 = 1 ∧
    (extract_class_summary (fun _ => some "") max_retries).1 =
      (extract_class_summary (fun _ => none) max_retries).1 ∧
    (extract_project_overview (fun _ => some "") max_retries).1 =
      (extract_project_overview (fun _ => none) max_retries).1 := by
  obtain ⟨n, rfl⟩ : ∃ n, max_retries = n + 1 := ⟨max_retries - 1, by omega⟩
  have hfirst :
      call_with_retry (fun _ => some "") (n + 1) = (some "", [], 1) := by
    rw [call_with_retry, List.range_eq_range', List.range'_succ]
    rfl
  have hfail1 :
      (call_with_retry (fun _ => none) (n + 1)).1 = none := by
    have hgo := call_with_retry_go_all_fail (n + 1) (n + 1) 0 (by omega) (by omega)
    rw [call_with_retry, List.range_eq_range', hgo]
  refine ⟨?_, ?_, ?_, ?_, ?_, ?_⟩ <;>
    simp [extract_class_summary, extract_project_overview, hfirst, hfail1, pyOrElse]

/-- Witness for C10 at the configured default of 3 attempts. -/
theorem empty_content_falls_back_without_retry_witness :
    1 ≤ 3 ∧
      ((extract_class_summary (fun _ => some "") 3).1 = "Summary unavailable" ∧
       (extract_class_summary (fun _ => some "") 3).2.2 = 1 ∧
       (extract_project_overview (fun _ => some "") 3).1 = "Overview unavailable" ∧
       (extract_project_overview (fun _ => some "") 3).2.2 = 1 ∧
       (extract_class_summary (fun _ => some "") 3).1 =
         (extract_class_summary (fun _ => none) 3).1 ∧
       (extract_project_overview (fun _ => some "") 3).1 =
         (extract_project_overview (fun _ => none) 3).1) :=
  ⟨by decide, empty_content_falls_back_without_retry 3 (by decide)⟩

/-- `scan_select` distributes over list append. -/
lemma scan_select_append (exts : List String)
    (l1 l2 : List (String × Except String JavaTree)) :
    scan_select exts (l1 ++ l2) = scan_select exts l1 ++ scan_select exts l2 := by
  induction l1 with
  | nil => rfl
  | cons f rest ih =>
      simp only [List.cons_append, scan_select]
      split <;> simp [ih]

/-- `scan_parse_loop` distributes over list append. -/
lemma scan_parse_loop_append (l1 l2 : List (String × Except String JavaTree)) :
    scan_parse_loop (l1 ++ l2) = scan_parse_loop l1 ++ scan_parse_loop l2 := by
  induction l1 with
  | nil => rfl
  | cons f rest ih =>
      simp only [List.cons_append, scan_parse_loop]
      split <;> simp [ih]

/-- The parse-and-keep loop, declaratively: parse every file in order and
keep exactly those results with at least one class or interface. -/
lemma scan_parse_loop_eq_filter (files : List (String × Except String JavaTree)) :
    scan_parse_loop files =
      (files.map (fun f => (parse_java_file f.1 f.2).1)).filter
        (fun p => !p.classes.isEmpty || !p.interfaces.isEmpty) := by
  induction files with
  | nil => rfl
  | cons f rest ih =>
      simp only [scan_parse_loop, List.map_cons, List.filter_cons, ih]

/-- Counting form of the parse-and-keep loop: every selected file is either
kept or discarded, and the discarded ones are exactly those whose parse
yields zero classes and zero interfaces. -/
lemma scan_parse_loop_length (files : List (String × Except String JavaTree)) :
    files.length = (scan_parse_loop files).length +
      ((files.map (fun f => (parse_java_file f.1 f.2).1)).filter
        (fun p => p.classes.isEmpty && p.interfaces.isEmpty)).length := by
  induction files with
  | nil => rfl
  | cons f rest ih =>
      simp only [List.length_cons, List.map_cons, List.filter_cons, scan_parse_loop]
      cases hc : (parse_java_file f.1 f.2).1.classes.isEmpty <;>
        cases hi : (parse_java_file f.1 f.2).1.interfaces.isEmpty <;>
          simp [hc, hi] <;> omega

/-- C5: the Scanner's output is exactly the in-order parses of the selected
files that have at least one class or interface, and the number of
discarded files equals the number of selected files whose parse yielded
zero classes and zero interfaces. -/
theorem scan_output_characterization (exts : List String)
    (files : List (String × Except String JavaTree)) :
    scan exts files =
      ((scan_select exts files).map (fun f => (parse_java_file f.1 f.2).1)).filter
        (fun p => !p.classes.isEmpty || !p.interfaces.isEmpty) ∧
    (scan_select exts files).length =
      (scan exts files).length +
        (((scan_select exts files).map (fun f => (parse_java_file f.1 f.2).1)).filter
          (fun p => p.classes.isEmpty && p.interfaces.isEmpty)).length :=
  ⟨scan_parse_loop_eq_filter (scan_select exts files),
   scan_parse_loop_length (scan_select exts files)⟩

/-- C4: on a syntax error, `parse_java_file` returns the empty-but-valid
result (file path set, null package, empty imports, classes and interfaces)
with a single warning logged, and a malformed file anywhere in the walked
tree leaves the scan of the remaining files unchanged. -/
theorem parse_error_yields_empty_result_and_scan_continues (file_path e : String) :
    (parse_java_file file_path (Except.error e)).1 =
      ParsedFile.mk file_path [] [] none [] ∧
    (parse_java_file file_path (Except.error e)).2 =
      [LogEvent.mk LogLevel.warning ("Parse error in " ++ file_path ++ ": " ++ e)] ∧
    ∀ (exts : List String) (pre post : List (String × Except String JavaTree)),
      scan exts (pre ++ (file_path, Except.error e) :: post) =
        scan exts pre ++ scan exts post := by
  refine ⟨rfl, rfl, ?_⟩
  intro exts pre post
  show scan_parse_loop (scan_select exts (pre ++ (file_path, Except.error e) :: post)) = _
  rw [scan_select_append, scan_parse_loop_append]
  congr 1
  by_cases h : (exts.any (fun ext => pyEndsWith file_path ext)) = true
  · simp [scan_select, h, scan_parse_loop, parse_java_file, scan]
  · simp [scan_select, h, scan]

/-- Folding `acc ++ g f` over a list appends the flattened images. -/
lemma foldl_append_eq {α β : Type} (g : β → List α) (l : List β) :
    ∀ acc, l.foldl (fun acc f => acc ++ g f) acc = acc ++ (l.map g).flatten := by
  induction l with
  | nil => intro acc; simp
  | cons x rest ih => intro acc; simp [ih]

/-- The class-aggregation loop flattens the classes in file order. -/
lemma aggregate_classes_eq (l : List ParsedFile) :
    aggregate_classes l = (l.map ParsedFile.classes).flatten := by
  have h := foldl_append_eq ParsedFile.classes l []
  simpa [aggregate_classes] using h

/-- The interface-aggregation loop flattens the interfaces in file order. -/
lemma aggregate_interfaces_eq (l : List ParsedFile) :
    aggregate_interfaces l = (l.map ParsedFile.interfaces).flatten := by
  have h := foldl_append_eq ParsedFile.interfaces l []
  simpa [aggregate_interfaces] using h

/-- The package-collection fold keeps exactly the non-null, non-empty
package names, in file order. -/
lemma aggregate_packages_go (l : List ParsedFile) :
    ∀ acc, l.foldl (fun acc f =>
        match f.package with
        | some p => if p.data.isEmpty then acc else acc ++ [p]
        | none => acc) acc =
      acc ++ (l.filterMap ParsedFile.package).filter (fun p => !p.data.isEmpty) := by
  induction l with
  | nil => intro acc; simp
  | cons x rest ih =>
      intro acc
      rw [List.foldl_cons, List.filterMap_cons]
      cases hx : x.package with
      | none => simpa using ih acc
      | some p =>
          by_cases hp : p.data = []
          · simpa [hp] using ih acc
          · simpa [hp] using ih (acc ++ [p])

/-- `aggregate_packages`, declaratively. -/
lemma aggregate_packages_eq (l : List ParsedFile) :
    aggregate_packages l =
      (l.filterMap ParsedFile.package).filter (fun p => !p.data.isEmpty) := by
  have h := aggregate_packages_go l []
  simpa [aggregate_packages] using h

/-- C6 counterexample: a file whose package is the empty string — non-null,
but falsy in Python — is skipped by the package-collection loop, so
`unique_packages` (0) differs from the cardinality of the set of distinct
non-null package names (1). -/
theorem get_statistics_empty_package_counterexample :
    (get_statistics [c6_demo_file]).unique_packages = 0 ∧
    (([c6_demo_file].filterMap ParsedFile.package).toFinset).card = 1 ∧
    (get_statistics [c6_demo_file]).unique_packages ≠
      (([c6_demo_file].filterMap ParsedFile.package).toFinset).card := by
  decide

/-- C6 amended: `get_statistics` is a pure function of its input whose
totals are the flattened counts and sums, and whose `unique_packages` is
the cardinality of the set of distinct non-null, non-empty package
names. -/
theorem get_statistics_totals_amended (parsed_files : List ParsedFile) :
    (get_statistics parsed_files).total_classes =
      ((parsed_files.map ParsedFile.classes).flatten).length ∧
    (get_statistics parsed_files).total_interfaces =
      ((parsed_files.map ParsedFile.interfaces).flatten).length ∧
    (get_statistics parsed_files).total_methods =
      (((parsed_files.map ParsedFile.classes).flatten).map
        (fun c => c.method_count)).sum ∧
    (get_statistics parsed_files).total_fields =
      (((parsed_files.map ParsedFile.classes).flatten).map
        (fun c => c.field_count)).sum ∧
    (get_statistics parsed_files).unique_packages =
      (((parsed_files.filterMap ParsedFile.package).filter
        (fun p => !p.data.isEmpty)).toFinset).card := by
  refine ⟨?_, ?_, ?_, ?_, ?_⟩
  · simp [get_statistics, aggregate_classes_eq]
  · simp [get_statistics, aggregate_interfaces_eq]
  · simp [get_statistics, aggregate_classes_eq]
  · simp [get_statistics, aggregate_classes_eq]
  · rw [List.card_toFinset]
    show (aggregate_packages parsed_files).dedup.length = _
    rw [aggregate_packages_eq]

/-- The methods and average complexity of a built class, by definition. -/
lemma build_class_info_avg (c : ClassDecl) :
    (build_class_info c).methods = c.methods.map extract_method_info ∧
    (build_class_info c).avg_complexity =
      (if (build_class_info c).methods.isEmpty then 0
       else ((((build_class_info c).methods.map (fun m => m.complexity)).sum : ℕ) : ℚ) /
         ((build_class_info c).methods.length : ℚ)) :=
  ⟨rfl, rfl⟩

/-- C7: every class produced by `parse_java_file` carries as
`avg_complexity` the arithmetic mean of its methods' complexities —
`0` when it has no methods, and exactly `3` when the complexities are
`[1, 3, 5]`. -/
theorem avg_complexity_is_mean (file_path : String) (tree : JavaTree) (ci : ClassInfo)
    (hci : ci ∈ (parse_java_file file_path (Except.ok tree)).1.classes) :
    (ci.methods = [] → ci.avg_complexity = 0) ∧
    (ci.methods ≠ [] →
      ci.avg_complexity =
        (((ci.methods.map (fun m => m.complexity)).sum : ℕ) : ℚ) /
          (ci.methods.length : ℚ)) ∧
    (ci.methods.map (fun m => m.complexity) = [1, 3, 5] → ci.avg_complexity = 3) := by
  obtain ⟨c, hc, rfl⟩ :=
    List.mem_map.mp (show ci ∈ tree.classDecls.map build_class_info from hci)
  obtain ⟨hm, ha⟩ := build_class_info_avg c
  refine ⟨?_, ?_, ?_⟩
  · intro h
    rw [ha, h]
    simp
  · intro h
    rw [ha]
    cases hme : (build_class_info c).methods with
    | nil => exact absurd hme h
    | cons a l => simp [hme]
  · intro h
    have hlen := congrArg List.length h
    simp only [List.length_map] at hlen
    cases hme : (build_class_info c).methods with
    | nil => rw [hme] at h; exact absurd h (by simp)
    | cons a l =>
        rw [hme] at h hlen
        rw [ha, hme, h, hlen]
        norm_num

/-- Witness for C7: the `[1, 3, 5]` class has average complexity exactly
3. -/
theorem avg_complexity_is_mean_witness :
    (build_class_info c7_demo_class).avg_complexity = 3 :=
  (avg_complexity_is_mean "Calc.java" c7_demo_tree (build_class_info c7_demo_class)
      (List.mem_singleton_self _)).2.2 (by decide)

/-- C9: two runs of `structure_knowledge` on identical parsed input with the
same (deterministic) backend functions yield reports equal in
`project_overview`, `classes`, `interfaces` and every metadata field other
than `extraction_date`, whatever the two timestamps are. -/
theorem structure_knowledge_deterministic (overview : List ClassInfo → List String → String)
    (summarize : ClassInfo → String) (t1 t2 : String) (parsed_files : List ParsedFile) :
    (structure_knowledge overview summarize t1 parsed_files).project_overview =
      (structure_knowledge overview summarize t2 parsed_files).project_overview ∧
    (structure_knowledge overview summarize t1 parsed_files).classes =
      (structure_knowledge overview summarize t2 parsed_files).classes ∧
    (structure_knowledge overview summarize t1 parsed_files).interfaces =
      (structure_knowledge overview summarize t2 parsed_files).interfaces ∧
    (structure_knowledge overview summarize t1 parsed_files).metadata.total_classes =
      (structure_knowledge overview summarize t2 parsed_files).metadata.total_classes ∧
    (structure_knowledge overview summarize t1 parsed_files).metadata.total_interfaces =
      (structure_knowledge overview summarize t2 parsed_files).metadata.total_interfaces ∧
    (structure_knowledge overview summarize t1 parsed_files).metadata.total_methods =
      (structure_knowledge overview summarize t2 parsed_files).metadata.total_methods ∧
    (structure_knowledge overview summarize t1 parsed_files).metadata.packages =
      (structure_knowledge overview summarize t2 parsed_files).metadata.packages ∧
    (structure_knowledge overview summarize t1 parsed_files).metadata.avg_class_complexity =
      (structure_knowledge overview summarize t2 parsed_files).metadata.avg_class_complexity :=
  ⟨rfl, rfl, rfl, rfl, rfl, rfl, rfl, rfl⟩
